import Mathlib

/-!
Shallow embedding of the Warely ai-service health routes
(`services/ai-service/app/routes/health.py`).

The two HTTP handlers are modelled as functions of an explicit `HostState`
carrying everything the Python code reads from its environment: the outcome
of the psutil metric reads (which may raise), the process environment
(`os.getenv`), and the clock (`datetime.utcnow().isoformat()`).  A handler
result of `Except.ok v` models the handler returning the value `v` normally;
`Except.error` would model an exception propagating out of the handler to
the framework.
-/

/-- JSON-like values returned by the HTTP handlers. -/
inductive JVal where
  | str : String → JVal
  | rat : ℚ → JVal
  | int : Int → JVal
  | obj : List (String × JVal) → JVal

/-- Field lookup in a JSON object; `none` on non-objects and missing keys. -/
def JVal.getField : JVal → String → Option JVal
  | .obj fs, k => (fs.find? (fun p => p.1 == k)).map (fun p => p.2)
  | _, _ => none

/-- Result of the `psutil.virtual_memory()` call: utilization percentage and
available bytes. -/
structure VirtualMemory where
  percent : ℚ
  available : Int

/-- Host metrics read inside the `try` block of `detailed_health`:
`psutil.virtual_memory()` and `psutil.cpu_percent()`. -/
structure SysMetrics where
  memory : VirtualMemory
  cpu_percent : ℚ

/-- Ambient state one handler invocation observes: the outcome of the psutil
metric reads (`Except.error e` models the reads raising an exception whose
`str` is `e`), the process environment, and the clock reading. -/
structure HostState where
  metrics : Except String SysMetrics
  env : String → Option String
  clock : String

/-- Embedding of `os.getenv(name, default)`. -/
def os_getenv (st : HostState) (name dflt : String) : String :=
  (st.env name).getD dflt

/-- Handler `health_check` (GET on the `/health` mount root): returns the
static liveness dict with a fresh timestamp. -/
def health_check (st : HostState) : Except String JVal :=
  .ok (.obj [
    ("status", .str "ok"),
    ("service", .str "ai-service"),
    ("timestamp", .str st.clock),
    ("version", .str "1.0.0")])

/-- The `try` block of `detailed_health`: the psutil reads may raise, in
which case the whole block aborts with the exception. -/
def detailed_health_try (st : HostState) : Except String JVal := do
  let m ← st.metrics
  pure (.obj [
    ("status", .str "ok"),
    ("service", .str "ai-service"),
    ("timestamp", .str st.clock),
    ("version", .str "1.0.0"),
    ("system", .obj [
      ("cpu_percent", .rat m.cpu_percent),
      ("memory_percent", .rat m.memory.percent),
      ("memory_available", .int m.memory.available),
      ("environment", .str (os_getenv st "NODE_ENV" "production"))]),
    ("dependencies", .obj [
      ("tensorflow", .str "ready"),
      ("mongodb", .str "connected"),
      ("redis", .str "connected")])])

/-- Handler `detailed_health` (GET `/health/detailed`): the `except` clause
catches any exception from the try block and returns the error-shaped dict
instead of propagating. -/
def detailed_health (st : HostState) : Except String JVal :=
  match detailed_health_try st with
  | .ok v => .ok v
  | .error e => .ok (.obj [
      ("status", .str "error"),
      ("error", .str e),
      ("timestamp", .str st.clock)])

/-- Transport status assigned by the FastAPI runtime to a handler outcome:
a handler that returns a value normally is serialized with HTTP 200, while
an exception propagating out of the handler surfaces as HTTP 500. -/
def transportStatus : Except String JVal → Nat
  | .ok _ => 200
  | .error _ => 500

/-- A well-formed report: an object whose `status` field is `"ok"` or
`"error"` and which carries a string `timestamp` field. -/
def isWellFormedReport (v : JVal) : Bool :=
  (match v.getField "status" with
   | some (.str s) => s == "ok" || s == "error"
   | _ => false) &&
  (match v.getField "timestamp" with
   | some (.str _) => true
   | _ => false)

/-- Concrete metrics sample used by the witness states. -/
def sampleMetrics : SysMetrics :=
  { memory := { percent := 42, available := 123456 }, cpu_percent := 7 }

/-- Concrete host state where the metric reads succeed and NODE_ENV is set
to "staging". -/
def sampleOkState : HostState :=
  { metrics := .ok sampleMetrics
    env := fun n => if n = "NODE_ENV" then some "staging" else none
    clock := "2026-10-12T00:00:00" }

/-- Concrete host state where the metric reads raise an exception whose
textual description is "boom". -/
def sampleErrState : HostState :=
  { metrics := .error "boom"
    env := fun _ => none
    clock := "2026-10-12T00:00:01" }

/-- Concrete host state where the metric reads raise an exception whose
textual description is empty, as with a bare Exception() in Python. -/
def emptyErrState : HostState :=
  { metrics := .error ""
    env := fun _ => none
    clock := "2026-10-12T00:00:02" }

/-- Second concrete host state with the same clock as `sampleOkState` but a
different environment and different metrics. -/
def otherHostSameClock : HostState :=
  { metrics := .error "unavailable"
    env := fun n => if n = "NODE_ENV" then some "development" else some "x"
    clock := "2026-10-12T00:00:00" }

/-- C1: every invocation of `detailed_health` returns normally (`Except.ok`)
with a well-formed report, for every host state, including states in which
the metric reads raise. -/
theorem c1_detailed_health_total (st : HostState) :
    ∃ v, detailed_health st = .ok v ∧ isWellFormedReport v = true := by
  unfold detailed_health detailed_health_try
  cases st.metrics with
  | ok m => exact ⟨_, rfl, rfl⟩
  | error e => exact ⟨_, rfl, rfl⟩

/-- C2: `health_check` always returns normally with status "ok", the
constant service string "ai-service", the constant version string "1.0.0",
and the current clock reading as timestamp; since the service and version
fields are constants independent of the state, they are identical across
all calls. -/
theorem c2_health_check_contract (st : HostState) :
    ∃ v, health_check st = .ok v ∧
      v.getField "status" = some (.str "ok") ∧
      v.getField "service" = some (.str "ai-service") ∧
      v.getField "version" = some (.str "1.0.0") ∧
      v.getField "timestamp" = some (.str st.clock) :=
  ⟨_, rfl, rfl, rfl, rfl, rfl⟩

/-- C3: when the metric reads raise with textual description `e`,
`detailed_health` returns the error-shaped report: status "error", the
failure text under the "error" key (the spec's `error_message` field), a
timestamp, and no `system`, `dependencies`, `service` or `version`
fields. -/
theorem c3_detailed_health_error_shape (st : HostState) (e : String)
    (h : st.metrics = .error e) :
    ∃ v, detailed_health st = .ok v ∧
      v.getField "status" = some (.str "error") ∧
      v.getField "error" = some (.str e) ∧
      v.getField "timestamp" = some (.str st.clock) ∧
      v.getField "system" = none ∧
      v.getField "dependencies" = none ∧
      v.getField "service" = none ∧
      v.getField "version" = none := by
  unfold detailed_health detailed_health_try
  rw [h]
  exact ⟨_, rfl, rfl, rfl, rfl, rfl, rfl, rfl, rfl⟩

/-- C3 witness: the error shape at the concrete failing state. -/
theorem c3_detailed_health_error_shape_witness :
    sampleErrState.metrics = .error "boom" ∧
    (∃ v, detailed_health sampleErrState = .ok v ∧
      v.getField "status" = some (.str "error") ∧
      v.getField "error" = some (.str "boom") ∧
      v.getField "timestamp" = some (.str sampleErrState.clock) ∧
      v.getField "system" = none ∧
      v.getField "dependencies" = none ∧
      v.getField "service" = none ∧
      v.getField "version" = none) :=
  ⟨rfl, c3_detailed_health_error_shape sampleErrState "boom" rfl⟩

/-- C4 counterexample: forcing the metric reads to fail with an exception
whose textual description is empty (in Python, str(Exception()) is the empty
string) yields an error report whose error field is the empty string, so the
claim that the error message is non-empty for any injected exception is
false. -/
theorem c4_counterexample :
    ∃ v s, detailed_health emptyErrState = .ok v ∧
      v.getField "status" = some (.str "error") ∧
      v.getField "error" = some (.str s) ∧ s = "" :=
  ⟨_, _, rfl, rfl, rfl, rfl⟩

/-- C4 amended: when the metric reads are forced to fail with any exception
whose textual description is `e`, `detailed_health` returns normally with
status "error" and an error field equal to `e` itself, and that field is
non-empty whenever `e` is non-empty. -/
theorem c4_error_message_amended (st : HostState) (e : String)
    (h : st.metrics = .error e) :
    ∃ v, detailed_health st = .ok v ∧
      v.getField "status" = some (.str "error") ∧
      v.getField "error" = some (.str e) ∧
      (e ≠ "" → ∃ s, v.getField "error" = some (.str s) ∧ s ≠ "") := by
  unfold detailed_health detailed_health_try
  rw [h]
  exact ⟨_, rfl, rfl, rfl, fun hne => ⟨e, rfl, hne⟩⟩

/-- C4 witness: the amended property at the concrete failing state. -/
theorem c4_error_message_amended_witness :
    sampleErrState.metrics = .error "boom" ∧
    (∃ v, detailed_health sampleErrState = .ok v ∧
      v.getField "status" = some (.str "error") ∧
      v.getField "error" = some (.str "boom") ∧
      ("boom" ≠ "" → ∃ s, v.getField "error" = some (.str s) ∧ s ≠ "")) :=
  ⟨rfl, c4_error_message_amended sampleErrState "boom" rfl⟩

/-- C5: when the metric reads succeed, the report has status "ok" and its
dependencies mapping is exactly the static map tensorflow ↦ "ready",
mongodb ↦ "connected", redis ↦ "connected", with no live probe involved:
the value does not depend on any part of the state. -/
theorem c5_dependencies_static (st : HostState) (m : SysMetrics)
    (h : st.metrics = .ok m) :
    ∃ v, detailed_health st = .ok v ∧
      v.getField "status" = some (.str "ok") ∧
      v.getField "dependencies" = some (.obj [
        ("tensorflow", .str "ready"),
        ("mongodb", .str "connected"),
        ("redis", .str "connected")]) := by
  unfold detailed_health detailed_health_try
  rw [h]
  exact ⟨_, rfl, rfl, rfl⟩

/-- C5 witness: the static dependencies map at the concrete succeeding
state. -/
theorem c5_dependencies_static_witness :
    sampleOkState.metrics = .ok sampleMetrics ∧
    (∃ v, detailed_health sampleOkState = .ok v ∧
      v.getField "status" = some (.str "ok") ∧
      v.getField "dependencies" = some (.obj [
        ("tensorflow", .str "ready"),
        ("mongodb", .str "connected"),
        ("redis", .str "connected")])) :=
  ⟨rfl, c5_dependencies_static sampleOkState sampleMetrics rfl⟩

/-- C6: when the metric reads succeed, the environment field of the system
block equals the NODE_ENV environment value when it is set, and
"production" when it is unset. -/
theorem c6_environment_field (st : HostState) (m : SysMetrics)
    (h : st.metrics = .ok m) :
    ∃ v sys, detailed_health st = .ok v ∧
      v.getField "system" = some sys ∧
      (∀ x, st.env "NODE_ENV" = some x →
        sys.getField "environment" = some (.str x)) ∧
      (st.env "NODE_ENV" = none →
        sys.getField "environment" = some (.str "production")) := by
  unfold detailed_health detailed_health_try os_getenv
  rw [h]
  refine ⟨_, _, rfl, rfl, ?_, ?_⟩
  · intro x hx
    simp [JVal.getField, hx]
  · intro hx
    simp [JVal.getField, hx]

/-- C6 witness: with NODE_ENV set to "staging" the environment field is
"staging". -/
theorem c6_environment_field_witness :
    sampleOkState.metrics = .ok sampleMetrics ∧
    (∃ v sys, detailed_health sampleOkState = .ok v ∧
      v.getField "system" = some sys ∧
      (∀ x, sampleOkState.env "NODE_ENV" = some x →
        sys.getField "environment" = some (.str x)) ∧
      (sampleOkState.env "NODE_ENV" = none →
        sys.getField "environment" = some (.str "production"))) :=
  ⟨rfl, c6_environment_field sampleOkState sampleMetrics rfl⟩

/-- C7: when the metric reads succeed and the host metrics source reports
values in its documented ranges, the report has status "ok", a cpu_percent
in [0,100], a memory_percent in [0,100] and a non-negative
memory_available. -/
theorem c7_metric_ranges (st : HostState) (m : SysMetrics)
    (h : st.metrics = .ok m)
    (hc0 : 0 ≤ m.cpu_percent) (hc1 : m.cpu_percent ≤ 100)
    (hm0 : 0 ≤ m.memory.percent) (hm1 : m.memory.percent ≤ 100)
    (ha : 0 ≤ m.memory.available) :
    ∃ v sys, detailed_health st = .ok v ∧
      v.getField "status" = some (.str "ok") ∧
      v.getField "system" = some sys ∧
      (∃ c, sys.getField "cpu_percent" = some (.rat c) ∧ 0 ≤ c ∧ c ≤ 100) ∧
      (∃ p, sys.getField "memory_percent" = some (.rat p) ∧ 0 ≤ p ∧ p ≤ 100) ∧
      (∃ a, sys.getField "memory_available" = some (.int a) ∧ 0 ≤ a) := by
  unfold detailed_health detailed_health_try
  rw [h]
  exact ⟨_, _, rfl, rfl, rfl,
    ⟨m.cpu_percent, rfl, hc0, hc1⟩,
    ⟨m.memory.percent, rfl, hm0, hm1⟩,
    ⟨m.memory.available, rfl, ha⟩⟩

/-- C7 witness: the ranges at the concrete succeeding state. -/
theorem c7_metric_ranges_witness :
    sampleOkState.metrics = .ok sampleMetrics ∧
    (0 : ℚ) ≤ sampleMetrics.cpu_percent ∧ sampleMetrics.cpu_percent ≤ 100 ∧
    (0 : ℚ) ≤ sampleMetrics.memory.percent ∧
    sampleMetrics.memory.percent ≤ 100 ∧
    (0 : Int) ≤ sampleMetrics.memory.available ∧
    (∃ v sys, detailed_health sampleOkState = .ok v ∧
      v.getField "status" = some (.str "ok") ∧
      v.getField "system" = some sys ∧
      (∃ c, sys.getField "cpu_percent" = some (.rat c) ∧ 0 ≤ c ∧ c ≤ 100) ∧
      (∃ p, sys.getField "memory_percent" = some (.rat p) ∧ 0 ≤ p ∧ p ≤ 100) ∧
      (∃ a, sys.getField "memory_available" = some (.int a) ∧ 0 ≤ a)) :=
  ⟨rfl, by decide, by decide, by decide, by decide, by decide,
   c7_metric_ranges sampleOkState sampleMetrics rfl
     (by decide) (by decide) (by decide) (by decide) (by decide)⟩

/-- C8: both handlers return normally for every host state, so the
transport-level status is 200 for the basic report and for both the ok and
the error variant of the detailed report; failure is signaled only via the
status field of the body. -/
theorem c8_transport_status_200 (st : HostState) :
    transportStatus (health_check st) = 200 ∧
    transportStatus (detailed_health st) = 200 := by
  refine ⟨rfl, ?_⟩
  unfold detailed_health
  cases detailed_health_try st <;> rfl

/-- C9: every value returned by either handler, in the success as well as in
the error branch, is an object carrying a status field equal to "ok" or
"error" and a timestamp field; in particular the timestamp is present in the
error branch. -/
theorem c9_status_timestamp_invariant (st : HostState) :
    (∃ v, health_check st = .ok v ∧
      (∃ s, v.getField "status" = some (.str s) ∧ (s = "ok" ∨ s = "error")) ∧
      (∃ t, v.getField "timestamp" = some (.str t))) ∧
    (∃ v, detailed_health st = .ok v ∧
      (∃ s, v.getField "status" = some (.str s) ∧ (s = "ok" ∨ s = "error")) ∧
      (∃ t, v.getField "timestamp" = some (.str t))) := by
  constructor
  · exact ⟨_, rfl, ⟨"ok", rfl, Or.inl rfl⟩, ⟨st.clock, rfl⟩⟩
  · unfold detailed_health detailed_health_try
    cases st.metrics with
    | ok m => exact ⟨_, rfl, ⟨"ok", rfl, Or.inl rfl⟩, ⟨st.clock, rfl⟩⟩
    | error e => exact ⟨_, rfl, ⟨"error", rfl, Or.inr rfl⟩, ⟨st.clock, rfl⟩⟩

/-- C10: the output of `health_check` is independent of the environment and
the host metrics: any two invocations whose clock readings agree return
identical reports, whatever their environments and metrics. -/
theorem c10_basic_noninterference (st₁ st₂ : HostState)
    (h : st₁.clock = st₂.clock) :
    health_check st₁ = health_check st₂ := by
  unfold health_check
  rw [h]

/-- C10 witness: two states differing in environment and metrics but with
equal clocks give identical basic reports. -/
theorem c10_basic_noninterference_witness :
    sampleOkState.clock = otherHostSameClock.clock ∧
    health_check sampleOkState = health_check otherHostSameClock :=
  ⟨rfl, c10_basic_noninterference sampleOkState otherHostSameClock rfl⟩
